import Mathlib

/-!
# Prismodoro session controller — verification development

Shallow embedding of the session state machine of `src/Component.tsx`
(the `PrismodoroUI` component).  Each React `useState` variable becomes a
field of `State`; each handler becomes a pure function on `State`; the two
relevant `useEffect` blocks (the setup-time `timeLeft` synchronisation and
the interval management keyed on `status`) are applied after every handler
by the `step` function, mirroring the React render/effect cycle.  The single
`timerRef` interval is modelled by the `activeTick : Option TickKind`
field.  Side effects observable by the host (the alarm sound and the
`onFinish` callback) are returned as an explicit effect list.

JavaScript numeric operations are embedded over exact rationals:

* `Math.round(x)` is `⌊x + 1/2⌋` (round half toward +∞), embedded as
  `jsRound`.
* `targetMinutes * 0.2` / `* 0.6` (break ratios) and
  `targetMinutes * 60 * 0.8` (the cycle-qualification threshold) are exact:
  for integer `n` with `0 ≤ n ≤ 120`, the double computations
  `n * 0.2`, `n * 0.6` round to values on the same side of every
  half-integer as the exact rationals `n/5`, `3n/5` (which are never
  half-integers), and `n * 60 * 0.8` evaluates to exactly `48n` in double
  arithmetic, so the rational embedding agrees with the source on the
  whole input range.
* `Math.ceil(t / 60)` on a natural `t` is `⌈(t : ℚ) / 60⌉`.
-/

namespace Prismodoro

set_option maxRecDepth 8000

attribute [local semireducible] Rat.add Rat.mul Rat.inv Rat.sub Rat.ofScientific

/-- `TimerStatus` from the source (the status `break` is rendered
`breakPhase`). -/
inductive TimerStatus
  | idle
  | setup
  | running
  | paused
  | flow
  | summary
  | breakPhase
  | breakEnd
  deriving DecidableEq, Repr

/-- `FocusMode` from the source. -/
inductive FocusMode
  | classic
  | prisma
  deriving DecidableEq, Repr

/-- Which clock the single `timerRef` interval is currently driving. -/
inductive TickKind
  | countdown
  | overtime
  | breakClock
  deriving DecidableEq, Repr

/-- The `useState` variables of the component (plus `activeTick`, modelling the
single `timerRef` interval managed by the timer effect). -/
structure State where
  status : TimerStatus
  targetMinutes : ℕ
  timeLeft : ℕ
  flowTime : ℕ
  totalFocusTime : ℕ
  focusMode : FocusMode
  isCustomMode : Bool
  breakTimeLeft : ℕ
  breakDuration : ℕ
  previousTargetMinutes : ℕ
  previousFocusMode : FocusMode
  pomodoroCycles : ℕ
  activeTick : Option TickKind
  deriving DecidableEq, Repr

/-- `CYCLES_BEFORE_LONG_BREAK = 4` from the source. -/
def CYCLES_BEFORE_LONG_BREAK : ℕ := 4

/-- JavaScript `Math.round`: round half toward positive infinity, i.e. the
floor of `q + 1/2`. -/
def jsRound (q : ℚ) : ℤ := (q + 1 / 2).floor

/-- Initial state on component mount: `useState` initialisers of
`PrismodoroUI` for a given `defaultMinutes` prop. -/
def init (defaultMinutes : ℕ) : State where
  status := .setup
  targetMinutes := defaultMinutes
  timeLeft := defaultMinutes * 60
  flowTime := 0
  totalFocusTime := 0
  focusMode := .classic
  isCustomMode := false
  breakTimeLeft := 0
  breakDuration := 0
  previousTargetMinutes := defaultMinutes
  previousFocusMode := .classic
  pomodoroCycles := 0
  activeTick := none

/-- The effect that re-synchronises `timeLeft` with `targetMinutes * 60`
while the status is `setup` or `idle` (source lines 188–192). -/
def syncSetupTimeLeft (s : State) : State :=
  if s.status = .setup ∨ s.status = .idle then
    { s with timeLeft := s.targetMinutes * 60 }
  else s

/-- The timer effect (source lines 195–257): exactly one interval exists
while in a ticking phase, keyed on the current status; entering any other
status clears it. -/
def syncTimer (s : State) : State :=
  { s with activeTick :=
      match s.status with
      | .running => some .countdown
      | .flow => some .overtime
      | .breakPhase => some .breakClock
      | _ => none }

/-- `handleInitialize` from the source (defined there but not wired to any
rendered control, so it is not an `Action` below). -/
def handleInitialize (s : State) : State :=
  { s with status := .setup }

/-- `handleStartFocus` (also bound to the resume button). -/
def handleStartFocus (s : State) : State :=
  { s with status := .running }

/-- `handlePause` from the source. -/
def handlePause (s : State) : State :=
  { s with status := .paused }

/-- `handleStop`: `elapsed = totalDuration - timeLeft + flowTime`;
counts a cycle when `elapsed >= targetMinutes * 60 * 0.8` (`0.8 = 4/5`
exactly, see the header note). -/
def handleStop (s : State) : State :=
  let elapsed := s.targetMinutes * 60 - s.timeLeft + s.flowTime
  { s with
    totalFocusTime := elapsed
    pomodoroCycles :=
      if (elapsed : ℚ) ≥ (s.targetMinutes : ℚ) * 60 * (4 / 5) then
        s.pomodoroCycles + 1
      else s.pomodoroCycles
    status := .summary }

/-- `handleReset` from the source: back to setup with the `defaultMinutes`
prop, zeroing flow/total counters and the cycle counter. -/
def handleReset (defaultMinutes : ℕ) (s : State) : State :=
  { s with
    status := .setup
    targetMinutes := defaultMinutes
    timeLeft := defaultMinutes * 60
    flowTime := 0
    totalFocusTime := 0
    pomodoroCycles := 0 }

/-- Host-visible side effects of the controller. -/
inductive Effect
  | playAlarm
  | callOnFinish (minutes : ℕ)
  deriving DecidableEq, Repr

/-- `handleFinishSession`: `onFinish(Math.ceil(totalFocusTime / 60))`
followed by `handleReset()`. -/
def handleFinishSession (defaultMinutes : ℕ) (s : State) :
    State × List Effect :=
  (handleReset defaultMinutes s,
    [Effect.callOnFinish ((s.totalFocusTime : ℚ) / 60).ceil.toNat])

/-- `handleStartBreak`: snapshot target/mode, then
`breakMinutes = Math.round(targetMinutes * (cycles ≥ 4 ? 0.6 : 0.2))`
(`0.2 = 1/5`, `0.6 = 3/5` exactly, see the header note). -/
def handleStartBreak (s : State) : State :=
  let isLongBreak := CYCLES_BEFORE_LONG_BREAK ≤ s.pomodoroCycles
  let ratioQ : ℚ := if isLongBreak then 3 / 5 else 1 / 5
  let breakMinutes := (jsRound ((s.targetMinutes : ℚ) * ratioQ)).toNat
  { s with
    previousTargetMinutes := s.targetMinutes
    previousFocusMode := s.focusMode
    breakDuration := breakMinutes * 60
    breakTimeLeft := breakMinutes * 60
    status := .breakPhase }

/-- `handleContinueAfterBreak` from the source. -/
def handleContinueAfterBreak (s : State) : State :=
  { s with
    targetMinutes := s.previousTargetMinutes
    focusMode := s.previousFocusMode
    timeLeft := s.previousTargetMinutes * 60
    flowTime := 0
    totalFocusTime := 0
    pomodoroCycles :=
      if CYCLES_BEFORE_LONG_BREAK ≤ s.pomodoroCycles then 0
      else s.pomodoroCycles
    status := .running }

/-- One one-second interval tick, dispatched on the current status exactly
as the three `setInterval` callbacks of the timer effect; a tick in a
non-ticking phase is a no-op. -/
def tickStep (s : State) : State × List Effect :=
  match s.status with
  | .running =>
      if s.timeLeft ≤ 1 then
        match s.focusMode with
        | .classic =>
            ({ s with
                timeLeft := 0
                totalFocusTime := s.targetMinutes * 60
                pomodoroCycles := s.pomodoroCycles + 1
                status := .summary },
              [Effect.playAlarm])
        | .prisma =>
            ({ s with timeLeft := 0, status := .flow }, [])
      else ({ s with timeLeft := s.timeLeft - 1 }, [])
  | .flow => ({ s with flowTime := s.flowTime + 1 }, [])
  | .breakPhase =>
      if s.breakTimeLeft ≤ 1 then
        ({ s with breakTimeLeft := 0, status := .breakEnd }, [])
      else ({ s with breakTimeLeft := s.breakTimeLeft - 1 }, [])
  | _ => (s, [])

/-- `setTargetMinutes(min)` from a preset button (15/25/50). -/
def setPreset (m : ℕ) (s : State) : State :=
  { s with targetMinutes := m }

/-- The "PERSONALIZAR" button: enter custom mode, and move a preset value
to the default custom start of 30. -/
def enterCustomMode (s : State) : State :=
  { s with
    isCustomMode := true
    targetMinutes :=
      if s.targetMinutes = 15 ∨ s.targetMinutes = 25 ∨ s.targetMinutes = 50
      then 30 else s.targetMinutes }

/-- The "VOLTAR" button: leave custom mode. -/
def exitCustomMode (s : State) : State :=
  { s with isCustomMode := false }

/-- The custom slider `onChange` (the range input constrains the value to
1..120). -/
def setSlider (v : ℕ) (s : State) : State :=
  { s with targetMinutes := v }

/-- `setFocusMode` from the mode switch. -/
def setMode (m : FocusMode) (s : State) : State :=
  { s with focusMode := m }

/-- Controller actions: every handler wired to the UI plus the interval
tick. -/
inductive Action
  | startFocus
  | pause
  | stop
  | reset
  | finishSession
  | startBreak
  | continueAfterBreak
  | goToSetupAfterBreak
  | tick
  | preset (m : ℕ)
  | customOn
  | customOff
  | slider (v : ℕ)
  | mode (m : FocusMode)
  deriving DecidableEq, Repr

/-- Dispatch an action to its handler, collecting host-visible effects. -/
def applyHandler (defaultMinutes : ℕ) : Action → State → State × List Effect
  | .startFocus, s => (handleStartFocus s, [])
  | .pause, s => (handlePause s, [])
  | .stop, s => (handleStop s, [])
  | .reset, s => (handleReset defaultMinutes s, [])
  | .finishSession, s => handleFinishSession defaultMinutes s
  | .startBreak, s => (handleStartBreak s, [])
  | .continueAfterBreak, s => (handleContinueAfterBreak s, [])
  | .goToSetupAfterBreak, s => (handleReset defaultMinutes s, [])
  | .tick, s => tickStep s
  | .preset m, s => (setPreset m s, [])
  | .customOn, s => (enterCustomMode s, [])
  | .customOff, s => (exitCustomMode s, [])
  | .slider v, s => (setSlider v s, [])
  | .mode m, s => (setMode m s, [])

/-- One controller step: run the handler, then the two effects React fires
after the state update (setup `timeLeft` sync, then timer sync). -/
def step (defaultMinutes : ℕ) (a : Action) (s : State) :
    State × List Effect :=
  let r := applyHandler defaultMinutes a s
  (syncTimer (syncSetupTimeLeft r.1), r.2)

/-- Actions as constrained by the UI affordances: presets are 15/25/50 and
the slider range input is bounded to 1..120. -/
def ValidAction : Action → Prop
  | .preset m => m = 15 ∨ m = 25 ∨ m = 50
  | .slider v => 1 ≤ v ∧ v ≤ 120
  | _ => True

/-- States reachable from mount under UI-valid actions. -/
inductive Reachable (defaultMinutes : ℕ) : State → Prop
  | start : Reachable defaultMinutes (init defaultMinutes)
  | next {s : State} {a : Action} :
      Reachable defaultMinutes s → ValidAction a →
      Reachable defaultMinutes (step defaultMinutes a s).1

/-- `k` interval ticks in sequence. -/
def runTicks (defaultMinutes : ℕ) : ℕ → State → State
  | 0, s => s
  | k + 1, s => (step defaultMinutes .tick (runTicks defaultMinutes k s)).1

/-- Run a whole action trace from a start state, discarding effects. -/
def runTrace (defaultMinutes : ℕ) (as : List Action) (s : State) : State :=
  as.foldl (fun t a => (step defaultMinutes a t).1) s

/-- Expected outcome of the break action (claim C1): the break duration is
sixty times the round-half-up of `0.2 × targetMinutes` while fewer than
four cycles are banked, and of `0.6 × targetMinutes` from four cycles on;
the break clock starts at the full duration.  The equivalent closed
integer forms `(2n+5)/10` and `(6n+5)/10` of the two rounded products are
asserted alongside. -/
def BreakActionSpec (d : ℕ) (s : State) : Prop :=
  (s.pomodoroCycles ≤ 3 →
    (step d .startBreak s).1.breakDuration =
      (jsRound ((s.targetMinutes : ℚ) * (1 / 5))).toNat * 60 ∧
    (jsRound ((s.targetMinutes : ℚ) * (1 / 5))).toNat =
      (2 * s.targetMinutes + 5) / 10) ∧
  (4 ≤ s.pomodoroCycles →
    (step d .startBreak s).1.breakDuration =
      (jsRound ((s.targetMinutes : ℚ) * (3 / 5))).toNat * 60 ∧
    (jsRound ((s.targetMinutes : ℚ) * (3 / 5))).toNat =
      (6 * s.targetMinutes + 5) / 10) ∧
  (step d .startBreak s).1.breakTimeLeft =
    (step d .startBreak s).1.breakDuration ∧
  (step d .startBreak s).1.status = .breakPhase

/-- Expected outcome of the stop action (claim C3): Summary is entered,
the focus total is elapsed countdown time plus overtime, and the cycle
counter is bumped by one exactly when the total reaches `0.8` of the
target. -/
def StopActionSpec (d : ℕ) (s : State) : Prop :=
  (step d .stop s).1.status = .summary ∧
  (step d .stop s).1.totalFocusTime =
    s.targetMinutes * 60 - s.timeLeft + s.flowTime ∧
  (step d .stop s).1.pomodoroCycles =
    (if (((step d .stop s).1.totalFocusTime : ℚ) ≥
          (s.targetMinutes : ℚ) * 60 * (4 / 5))
      then s.pomodoroCycles + 1 else s.pomodoroCycles) ∧
  (s.status = .flow → s.timeLeft = 0 →
    (step d .stop s).1.pomodoroCycles = s.pomodoroCycles + 1)

/-- Expected outcome of the tick that brings `timeLeft` to zero in Running
(claim C4): Prisma goes to Flow and never Summary; Classic goes to Summary
and never Flow, with the alarm effect emitted, the focus total set to the
full target and the cycle counter bumped. -/
def ZeroBoundarySpec (d : ℕ) (s : State) : Prop :=
  (s.focusMode = .prisma →
    (step d .tick s).1.status = .flow ∧
    (step d .tick s).1.status ≠ .summary ∧
    (step d .tick s).1.timeLeft = 0) ∧
  (s.focusMode = .classic →
    (step d .tick s).1.status = .summary ∧
    (step d .tick s).1.status ≠ .flow ∧
    (step d .tick s).1.timeLeft = 0 ∧
    (step d .tick s).1.totalFocusTime = s.targetMinutes * 60 ∧
    (step d .tick s).1.pomodoroCycles = s.pomodoroCycles + 1 ∧
    Effect.playAlarm ∈ (step d .tick s).2)

/-- Expected countdown behaviour (claim C5): from a fresh Running state
the remaining time after `k ≤ target` ticks is exactly `target - k` (so it
is never negative), the session is still Running strictly before the
target number of ticks, and the tick that reaches zero leaves Running for
Summary or Flow. -/
def CountdownSpec (d : ℕ) (s : State) : Prop :=
  (∀ k : ℕ, k ≤ s.targetMinutes * 60 →
    (runTicks d k s).timeLeft = s.targetMinutes * 60 - k) ∧
  (∀ k : ℕ, k < s.targetMinutes * 60 → (runTicks d k s).status = .running) ∧
  (runTicks d (s.targetMinutes * 60) s).timeLeft = 0 ∧
  ((runTicks d (s.targetMinutes * 60) s).status = .summary ∨
    (runTicks d (s.targetMinutes * 60) s).status = .flow)

/-- Expected outcome of the continue action from BreakEnd (claim C6):
Running is re-entered with target and mode restored from the snapshot,
the countdown reloaded from the restored target, overtime and the focus
total cleared, and the cycle counter reset to zero exactly when it was at
least four. -/
def ContinueActionSpec (d : ℕ) (s : State) : Prop :=
  (step d .continueAfterBreak s).1.status = .running ∧
  (step d .continueAfterBreak s).1.targetMinutes = s.previousTargetMinutes ∧
  (step d .continueAfterBreak s).1.focusMode = s.previousFocusMode ∧
  (step d .continueAfterBreak s).1.timeLeft = s.previousTargetMinutes * 60 ∧
  (step d .continueAfterBreak s).1.flowTime = 0 ∧
  (step d .continueAfterBreak s).1.totalFocusTime = 0 ∧
  (4 ≤ s.pomodoroCycles →
    (step d .continueAfterBreak s).1.pomodoroCycles = 0) ∧
  (s.pomodoroCycles < 4 →
    (step d .continueAfterBreak s).1.pomodoroCycles = s.pomodoroCycles)

/-- Expected outcome of the finish action (claim C7, as amended): the
completion callback fires exactly once with the ceiling of the focus total
in minutes, the phase returns to Setup with target, countdown, overtime,
focus total and cycle counter reset to their initial values, while the
mode and the break/snapshot fields keep their current values; the
continue-after-break action never emits any host effect. -/
def FinishActionSpec (d : ℕ) (s : State) : Prop :=
  (step d .finishSession s).2 =
    [Effect.callOnFinish ((s.totalFocusTime : ℚ) / 60).ceil.toNat] ∧
  (step d .finishSession s).1.status = .setup ∧
  (step d .finishSession s).1.targetMinutes = d ∧
  (step d .finishSession s).1.timeLeft = d * 60 ∧
  (step d .finishSession s).1.flowTime = 0 ∧
  (step d .finishSession s).1.totalFocusTime = 0 ∧
  (step d .finishSession s).1.pomodoroCycles = 0 ∧
  (step d .finishSession s).1.focusMode = s.focusMode ∧
  (step d .finishSession s).1.breakDuration = s.breakDuration ∧
  (step d .finishSession s).1.breakTimeLeft = s.breakTimeLeft ∧
  (step d .finishSession s).1.previousTargetMinutes =
    s.previousTargetMinutes ∧
  (step d .finishSession s).1.previousFocusMode = s.previousFocusMode ∧
  (∀ s2 : State, (step d .continueAfterBreak s2).2 = [])

/-- Expected frame property of pause and resume (claim C10): pausing
changes only the phase, and resuming changes only the phase back, with
the countdown left untouched in both steps (in particular it is not
re-initialised to the target). -/
def PauseResumeSpec (d : ℕ) (s : State) : Prop :=
  (step d .pause s).1.status = .paused ∧
  (step d .pause s).1.timeLeft = s.timeLeft ∧
  (step d .pause s).1.targetMinutes = s.targetMinutes ∧
  (step d .pause s).1.flowTime = s.flowTime ∧
  (step d .pause s).1.totalFocusTime = s.totalFocusTime ∧
  (step d .pause s).1.pomodoroCycles = s.pomodoroCycles ∧
  (step d .pause s).1.focusMode = s.focusMode ∧
  (step d .startFocus (step d .pause s).1).1.status = .running ∧
  (step d .startFocus (step d .pause s).1).1.timeLeft = s.timeLeft ∧
  (step d .startFocus (step d .pause s).1).1.targetMinutes =
    s.targetMinutes ∧
  (step d .startFocus (step d .pause s).1).1.flowTime = s.flowTime ∧
  (step d .startFocus (step d .pause s).1).1.totalFocusTime =
    s.totalFocusTime ∧
  (step d .startFocus (step d .pause s).1).1.pomodoroCycles =
    s.pomodoroCycles

/-- Target values the controller can hold stay inside the slider range
1..120 (both the live target and the break snapshot). -/
def TargetInv (s : State) : Prop :=
  1 ≤ s.targetMinutes ∧ s.targetMinutes ≤ 120 ∧
  1 ≤ s.previousTargetMinutes ∧ s.previousTargetMinutes ≤ 120

/-- The tick-source discipline (claim C9): the single interval slot drives
the clock matching the current ticking phase, and is empty in every
non-ticking phase. -/
def TickConsistent (s : State) : Prop :=
  (s.status = .running → s.activeTick = some .countdown) ∧
  (s.status = .flow → s.activeTick = some .overtime) ∧
  (s.status = .breakPhase → s.activeTick = some .breakClock) ∧
  (s.status ≠ .running → s.status ≠ .flow → s.status ≠ .breakPhase →
    s.activeTick = none)

/-- A concrete UI-valid run: set a custom one-minute target in classic
mode and let the countdown finish; this reaches Summary with one banked
cycle. -/
def classicRunState : State :=
  runTrace 25 ([.customOn, .slider 1, .startFocus] ++
    List.replicate 60 .tick) (init 25)

/-- A concrete UI-valid run: set a custom one-minute target in prisma
mode, run into Flow, take one second of overtime and stop; this reaches
Summary with the mode still prisma. -/
def prismaRunState : State :=
  runTrace 25 ([.customOn, .slider 1, .mode .prisma, .startFocus] ++
    List.replicate 61 .tick ++ [.stop]) (init 25)

/-- Concrete mid-run state (25-minute target, 300 seconds left) for the
stop-action witness. -/
def stopWitnessState : State :=
  { init 25 with status := .running, timeLeft := 300 }

/-- Concrete state one second before the zero boundary for the
tick-boundary witness. -/
def boundaryWitnessState : State :=
  { init 25 with status := .running, timeLeft := 1 }

/-- Concrete fresh one-minute run for the countdown witness. -/
def countdownWitnessState : State :=
  { init 25 with status := .running, targetMinutes := 1, timeLeft := 60 }

/-- Concrete BreakEnd state with a long-break snapshot for the
continue-action witness. -/
def continueWitnessState : State :=
  { init 25 with
      status := .breakEnd
      previousTargetMinutes := 50
      previousFocusMode := .prisma
      pomodoroCycles := 4 }

/-- Concrete Summary state (61 seconds of focus, prisma mode) for the
finish-action witness. -/
def finishWitnessState : State :=
  { init 25 with
      status := .summary
      totalFocusTime := 61
      focusMode := .prisma }

/-- Concrete mid-run state for the pause/resume witness: the countdown is
partway down, so a re-initialisation to the target would be visible. -/
def pauseWitnessState : State :=
  { init 25 with status := .running, timeLeft := 123 }

/-! ## Helper lemmas -/

@[simp]
theorem syncTimer_status (s : State) : (syncTimer s).status = s.status := rfl

@[simp]
theorem syncTimer_targetMinutes (s : State) :
    (syncTimer s).targetMinutes = s.targetMinutes := rfl

@[simp]
theorem syncTimer_timeLeft (s : State) :
    (syncTimer s).timeLeft = s.timeLeft := rfl

@[simp]
theorem syncTimer_flowTime (s : State) :
    (syncTimer s).flowTime = s.flowTime := rfl

@[simp]
theorem syncTimer_totalFocusTime (s : State) :
    (syncTimer s).totalFocusTime = s.totalFocusTime := rfl

@[simp]
theorem syncTimer_focusMode (s : State) :
    (syncTimer s).focusMode = s.focusMode := rfl

@[simp]
theorem syncTimer_isCustomMode (s : State) :
    (syncTimer s).isCustomMode = s.isCustomMode := rfl

@[simp]
theorem syncTimer_breakTimeLeft (s : State) :
    (syncTimer s).breakTimeLeft = s.breakTimeLeft := rfl

@[simp]
theorem syncTimer_breakDuration (s : State) :
    (syncTimer s).breakDuration = s.breakDuration := rfl

@[simp]
theorem syncTimer_previousTargetMinutes (s : State) :
    (syncTimer s).previousTargetMinutes = s.previousTargetMinutes := rfl

@[simp]
theorem syncTimer_previousFocusMode (s : State) :
    (syncTimer s).previousFocusMode = s.previousFocusMode := rfl

@[simp]
theorem syncTimer_pomodoroCycles (s : State) :
    (syncTimer s).pomodoroCycles = s.pomodoroCycles := rfl

@[simp]
theorem syncSetupTimeLeft_status (s : State) :
    (syncSetupTimeLeft s).status = s.status := by
  unfold syncSetupTimeLeft; split <;> rfl

@[simp]
theorem syncSetupTimeLeft_targetMinutes (s : State) :
    (syncSetupTimeLeft s).targetMinutes = s.targetMinutes := by
  unfold syncSetupTimeLeft; split <;> rfl

@[simp]
theorem syncSetupTimeLeft_flowTime (s : State) :
    (syncSetupTimeLeft s).flowTime = s.flowTime := by
  unfold syncSetupTimeLeft; split <;> rfl

@[simp]
theorem syncSetupTimeLeft_totalFocusTime (s : State) :
    (syncSetupTimeLeft s).totalFocusTime = s.totalFocusTime := by
  unfold syncSetupTimeLeft; split <;> rfl

@[simp]
theorem syncSetupTimeLeft_focusMode (s : State) :
    (syncSetupTimeLeft s).focusMode = s.focusMode := by
  unfold syncSetupTimeLeft; split <;> rfl

@[simp]
theorem syncSetupTimeLeft_isCustomMode (s : State) :
    (syncSetupTimeLeft s).isCustomMode = s.isCustomMode := by
  unfold syncSetupTimeLeft; split <;> rfl

@[simp]
theorem syncSetupTimeLeft_breakTimeLeft (s : State) :
    (syncSetupTimeLeft s).breakTimeLeft = s.breakTimeLeft := by
  unfold syncSetupTimeLeft; split <;> rfl

@[simp]
theorem syncSetupTimeLeft_breakDuration (s : State) :
    (syncSetupTimeLeft s).breakDuration = s.breakDuration := by
  unfold syncSetupTimeLeft; split <;> rfl

@[simp]
theorem syncSetupTimeLeft_previousTargetMinutes (s : State) :
    (syncSetupTimeLeft s).previousTargetMinutes =
      s.previousTargetMinutes := by
  unfold syncSetupTimeLeft; split <;> rfl

@[simp]
theorem syncSetupTimeLeft_previousFocusMode (s : State) :
    (syncSetupTimeLeft s).previousFocusMode = s.previousFocusMode := by
  unfold syncSetupTimeLeft; split <;> rfl

@[simp]
theorem syncSetupTimeLeft_pomodoroCycles (s : State) :
    (syncSetupTimeLeft s).pomodoroCycles = s.pomodoroCycles := by
  unfold syncSetupTimeLeft; split <;> rfl

@[simp]
theorem syncSetupTimeLeft_timeLeft (s : State) :
    (syncSetupTimeLeft s).timeLeft =
      if s.status = .setup ∨ s.status = .idle then s.targetMinutes * 60
      else s.timeLeft := by
  unfold syncSetupTimeLeft; split <;> simp_all

@[simp]
theorem step_fst (d : ℕ) (a : Action) (s : State) :
    (step d a s).1 = syncTimer (syncSetupTimeLeft (applyHandler d a s).1) :=
  rfl

@[simp]
theorem step_snd (d : ℕ) (a : Action) (s : State) :
    (step d a s).2 = (applyHandler d a s).2 := rfl

/-- Closed integer form of `Math.round(n * 0.2)` on the slider range. -/
theorem jsRound_fifth : ∀ n : ℕ, n < 121 →
    (jsRound ((n : ℚ) * (1 / 5))).toNat = (2 * n + 5) / 10 := by decide

/-- Closed integer form of `Math.round(n * 0.6)` on the slider range. -/
theorem jsRound_three_fifths : ∀ n : ℕ, n < 121 →
    (jsRound ((n : ℚ) * (3 / 5))).toNat = (6 * n + 5) / 10 := by decide

/-! ## Claims -/

/-- Claim C1: for every targetMinutes in 1..120, the break action from
Summary sets `breakDurationSeconds = breakMinutes * 60`, where
`breakMinutes` is the round-half-up of `0.2 × targetMinutes` when the
cycle count at break entry is in 0..3, and the round-half-up of
`0.6 × targetMinutes` when it is at least 4, uniformly in the target —
no special-casing of preset versus custom durations. -/
theorem c1_break_duration_formula (d : ℕ) (s : State)
    (h1 : 1 ≤ s.targetMinutes) (h2 : s.targetMinutes ≤ 120) :
    BreakActionSpec d s := by
  have e1 := jsRound_fifth s.targetMinutes (by omega)
  have e2 := jsRound_three_fifths s.targetMinutes (by omega)
  unfold BreakActionSpec
  simp only [step_fst, applyHandler, handleStartBreak,
    CYCLES_BEFORE_LONG_BREAK]
  refine ⟨fun hc => ?_, fun hc => ?_, ?_, ?_⟩
  · rw [if_neg (by omega)]
    simpa using e1
  · rw [if_pos (by omega)]
    simpa using e2
  · split <;> simp
  · simp

/-- Claim C1 witness: the formula at the default 25-minute target with no
banked cycles. -/
theorem c1_break_duration_formula_witness :
    1 ≤ (init 25).targetMinutes ∧ (init 25).targetMinutes ≤ 120 ∧
      BreakActionSpec 25 (init 25) :=
  ⟨by decide, by decide, c1_break_duration_formula 25 (init 25)
    (by decide) (by decide)⟩

/-- Claim C2 counterexample: a UI-valid run reaches Summary with
`cycleCount = 1`, and the finish action then drops `cycleCount` back to 0
— so finish does decrease the counter, contradicting the claim that only
process start and long-break continuation can lower it. -/
theorem c2_finish_decreases_cycles_counterexample :
    classicRunState.status = .summary ∧
    classicRunState.pomodoroCycles = 1 ∧
    (step 25 .finishSession classicRunState).1.pomodoroCycles <
      classicRunState.pomodoroCycles := by decide

/-- Claim C2 (amended): across any single controller action, `cycleCount`
never decreases, except that the full-reset actions (finish, skip-break,
new-session, reset) set it to 0, and continue-after-break sets it to 0
when it was at least 4 — in addition to the process-start reset. -/
theorem c2_cycles_monotone_except_resets (d : ℕ) (a : Action) (s : State) :
    s.pomodoroCycles ≤ (step d a s).1.pomodoroCycles ∨
    ((step d a s).1.pomodoroCycles = 0 ∧
      (a = .reset ∨ a = .finishSession ∨ a = .goToSetupAfterBreak ∨
        (a = .continueAfterBreak ∧ 4 ≤ s.pomodoroCycles))) := by
  cases a with
  | startFocus => left; simp [applyHandler, handleStartFocus]
  | pause => left; simp [applyHandler, handlePause]
  | stop =>
      left
      simp [applyHandler, handleStop]
      split <;> omega
  | reset =>
      right
      refine ⟨?_, Or.inl rfl⟩
      simp [applyHandler, handleReset]
  | finishSession =>
      right
      refine ⟨?_, Or.inr (Or.inl rfl)⟩
      simp [applyHandler, handleFinishSession, handleReset]
  | startBreak => left; simp [applyHandler, handleStartBreak]
  | continueAfterBreak =>
      by_cases h : 4 ≤ s.pomodoroCycles
      · right
        refine ⟨?_, Or.inr (Or.inr (Or.inr ⟨rfl, h⟩))⟩
        simp [applyHandler, handleContinueAfterBreak,
          CYCLES_BEFORE_LONG_BREAK, h]
      · left
        simp [applyHandler, handleContinueAfterBreak,
          CYCLES_BEFORE_LONG_BREAK, h]
  | goToSetupAfterBreak =>
      right
      refine ⟨?_, Or.inr (Or.inr (Or.inl rfl))⟩
      simp [applyHandler, handleReset]
  | tick =>
      left
      by_cases h1 : s.timeLeft ≤ 1 <;> by_cases h2 : s.breakTimeLeft ≤ 1 <;>
        cases hs : s.status <;> cases hm : s.focusMode <;>
        simp [applyHandler, tickStep, hs, hm, h1, h2]
  | preset m => left; simp [applyHandler, setPreset]
  | customOn => left; simp [applyHandler, enterCustomMode]
  | customOff => left; simp [applyHandler, exitCustomMode]
  | slider v => left; simp [applyHandler, setSlider]
  | mode m => left; simp [applyHandler, setMode]

/-- Claim C3: every stop action taken in Running, Paused or Flow moves the
session to Summary with `totalFocusSeconds = targetSeconds -
remainingSeconds + overtimeSeconds`, and increments `cycleCount` by
exactly one iff `totalFocusSeconds ≥ 0.8 × targetSeconds`; from Flow
(where the countdown is at zero) it always increments. -/
theorem c3_stop_totals_and_cycle (d : ℕ) (s : State)
    (_hs : s.status = .running ∨ s.status = .paused ∨ s.status = .flow)
    (hle : s.timeLeft ≤ s.targetMinutes * 60) :
    StopActionSpec d s := by
  unfold StopActionSpec
  refine ⟨?_, ?_, ?_, ?_⟩
  · simp [applyHandler, handleStop]
  · simp [applyHandler, handleStop]
  · simp [applyHandler, handleStop]
  · intro hf h0
    have he : s.targetMinutes * 60 - s.timeLeft + s.flowTime
        = s.targetMinutes * 60 + s.flowTime := by omega
    have hq : ((s.targetMinutes * 60 - s.timeLeft + s.flowTime : ℕ) : ℚ) ≥
        (s.targetMinutes : ℚ) * 60 * (4 / 5) := by
      rw [he]
      push_cast
      have h1 : (0 : ℚ) ≤ (s.targetMinutes : ℚ) * 60 := by positivity
      have h2 : (0 : ℚ) ≤ (s.flowTime : ℚ) := Nat.cast_nonneg _
      linarith
    simp only [step_fst, syncTimer_pomodoroCycles,
      syncSetupTimeLeft_pomodoroCycles, applyHandler, handleStop]
    rw [if_pos hq]

/-- Claim C3 witness: stopping a 25-minute run with 300 seconds left
(1200 seconds elapsed, exactly the 80 percent threshold). -/
theorem c3_stop_totals_and_cycle_witness :
    (stopWitnessState.status = .running ∨
      stopWitnessState.status = .paused ∨
      stopWitnessState.status = .flow) ∧
    stopWitnessState.timeLeft ≤ stopWitnessState.targetMinutes * 60 ∧
    StopActionSpec 25 stopWitnessState :=
  ⟨Or.inl rfl, by decide,
    c3_stop_totals_and_cycle 25 _ (Or.inl rfl) (by decide)⟩

/-- Claim C4: the tick that brings the countdown to zero in Running goes
to Flow (never Summary) in Prisma mode, and to Summary (never Flow) in
Classic mode with the alarm played, the focus total set to the full
target, and the cycle counter incremented. -/
theorem c4_zero_boundary_mode_dispatch (d : ℕ) (s : State)
    (hs : s.status = .running) (ht : s.timeLeft = 1) :
    ZeroBoundarySpec d s := by
  unfold ZeroBoundarySpec
  constructor
  · intro hm
    simp [applyHandler, tickStep, hs, hm, ht]
  · intro hm
    simp [applyHandler, tickStep, hs, hm, ht]

/-- Claim C4 witness: the final tick of a 25-minute classic run. -/
theorem c4_zero_boundary_mode_dispatch_witness :
    boundaryWitnessState.status = .running ∧
    boundaryWitnessState.timeLeft = 1 ∧
    ZeroBoundarySpec 25 boundaryWitnessState :=
  ⟨rfl, rfl, c4_zero_boundary_mode_dispatch 25 _ rfl rfl⟩

/-- A tick in Running with more than one second left only decrements the
countdown (and re-arms the countdown interval). -/
theorem tick_running_decrement (d : ℕ) (u : State)
    (hu : u.status = .running) (h2 : ¬ u.timeLeft ≤ 1) :
    (step d .tick u).1 =
      { u with timeLeft := u.timeLeft - 1, activeTick := some .countdown } := by
  simp [applyHandler, tickStep, syncSetupTimeLeft, syncTimer, hu, h2]

/-- Countdown invariant: strictly before the target number of ticks, a
run started fresh in Running is still Running with exactly
`target - k` seconds left, and the target and mode are untouched. -/
theorem runTicks_running_inv (d : ℕ) (s : State) (hs : s.status = .running)
    (h0 : s.timeLeft = s.targetMinutes * 60) :
    ∀ k : ℕ, k < s.targetMinutes * 60 →
      (runTicks d k s).status = .running ∧
      (runTicks d k s).timeLeft = s.targetMinutes * 60 - k ∧
      (runTicks d k s).targetMinutes = s.targetMinutes ∧
      (runTicks d k s).focusMode = s.focusMode := by
  intro k
  induction k with
  | zero => intro _; exact ⟨hs, by simp [runTicks, h0], rfl, rfl⟩
  | succ k ih =>
      intro hk
      obtain ⟨ist, itl, itm, ifm⟩ := ih (by omega)
      have h2 : ¬ (runTicks d k s).timeLeft ≤ 1 := by omega
      have hstep : runTicks d (k + 1) s =
          { runTicks d k s with
              timeLeft := (runTicks d k s).timeLeft - 1
              activeTick := some .countdown } := by
        rw [runTicks, tick_running_decrement d _ ist h2]
      rw [hstep]
      exact ⟨ist, by simp; omega, itm, ifm⟩

/-- Claim C5: starting Running with `remainingSeconds = targetSeconds`,
the countdown hits exactly zero after exactly `targetSeconds` ticks,
never going negative, stays in Running strictly before that, and the
tick that reaches zero transitions the phase (to Summary or Flow) rather
than stalling in Running. -/
theorem c5_countdown_reaches_zero (d : ℕ) (s : State)
    (hs : s.status = .running) (h0 : s.timeLeft = s.targetMinutes * 60)
    (hpos : 1 ≤ s.targetMinutes) :
    CountdownSpec d s := by
  have hinv := runTicks_running_inv d s hs h0
  obtain ⟨T, hT1⟩ : ∃ T, s.targetMinutes * 60 = T + 1 :=
    ⟨s.targetMinutes * 60 - 1, by omega⟩
  obtain ⟨lst, ltl, ltm, lfm⟩ := hinv T (by omega)
  have htl1 : (runTicks d T s).timeLeft = 1 := by omega
  have hfin : (runTicks d (s.targetMinutes * 60) s).timeLeft = 0 ∧
      ((runTicks d (s.targetMinutes * 60) s).status = .summary ∨
        (runTicks d (s.targetMinutes * 60) s).status = .flow) := by
    rw [hT1]
    cases hm : (runTicks d T s).focusMode <;>
      simp [runTicks, applyHandler, tickStep, lst, htl1, hm]
  refine ⟨?_, ?_, hfin.1, hfin.2⟩
  · intro k hk
    rcases Nat.lt_or_ge k (s.targetMinutes * 60) with h | h
    · exact (hinv k h).2.1
    · have hke : k = s.targetMinutes * 60 := by omega
      rw [hke, hfin.1]
      omega
  · intro k hk
    exact (hinv k hk).1

/-- Claim C5 witness: a one-minute run counted all the way down. -/
theorem c5_countdown_reaches_zero_witness :
    countdownWitnessState.status = .running ∧
    countdownWitnessState.timeLeft =
      countdownWitnessState.targetMinutes * 60 ∧
    1 ≤ countdownWitnessState.targetMinutes ∧
    CountdownSpec 25 countdownWitnessState :=
  ⟨rfl, by decide, by decide,
    c5_countdown_reaches_zero 25 _ rfl (by decide) (by decide)⟩

/-- Claim C6: every continue action taken in BreakEnd returns to Running
with target and mode restored from the break-entry snapshot, the
countdown reloaded from the restored target, overtime and focus total
cleared, and the cycle counter reset to zero exactly when it was at
least four (otherwise unchanged). -/
theorem c6_continue_after_break_restores (d : ℕ) (s : State)
    (_hs : s.status = .breakEnd) :
    ContinueActionSpec d s := by
  unfold ContinueActionSpec
  refine ⟨?_, ?_, ?_, ?_, ?_, ?_, ?_, ?_⟩
  · simp [applyHandler, handleContinueAfterBreak]
  · simp [applyHandler, handleContinueAfterBreak]
  · simp [applyHandler, handleContinueAfterBreak]
  · simp [applyHandler, handleContinueAfterBreak]
  · simp [applyHandler, handleContinueAfterBreak]
  · simp [applyHandler, handleContinueAfterBreak]
  · intro h
    simp [applyHandler, handleContinueAfterBreak,
      CYCLES_BEFORE_LONG_BREAK, h]
  · intro h
    simp only [step_fst, syncTimer_pomodoroCycles,
      syncSetupTimeLeft_pomodoroCycles, applyHandler,
      handleContinueAfterBreak, CYCLES_BEFORE_LONG_BREAK]
    rw [if_neg (by omega)]

/-- Claim C6 witness: continuing after a long break (four banked cycles)
with a 50-minute prisma snapshot. -/
theorem c6_continue_after_break_restores_witness :
    continueWitnessState.status = .breakEnd ∧
    ContinueActionSpec 25 continueWitnessState :=
  ⟨rfl, c6_continue_after_break_restores 25 _ rfl⟩

/-- Claim C7 counterexample: a UI-valid prisma run reaches Summary with
`mode = prisma`; the finish action returns to Setup but leaves the mode
prisma, while the initial value of the field is classic — so finish does
not reset all session fields to their initial values. -/
theorem c7_finish_mode_not_reset_counterexample :
    prismaRunState.status = .summary ∧
    prismaRunState.focusMode = .prisma ∧
    (step 25 .finishSession prismaRunState).1.status = .setup ∧
    (step 25 .finishSession prismaRunState).1.focusMode = .prisma ∧
    (init 25).focusMode = .classic := by decide

/-- Claim C7 (amended): the finish action invokes the completion callback
exactly once with `ceil(totalFocusSeconds / 60)` and returns to Setup
with phase, target, countdown, overtime, focus total and cycle counter
reset to their initial values; the mode and the break/snapshot fields
keep their current values, and the continue-after-break action never
invokes the callback. -/
theorem c7_finish_callback_and_reset (d : ℕ) (s : State)
    (_hs : s.status = .summary) :
    FinishActionSpec d s := by
  unfold FinishActionSpec
  refine ⟨?_, ?_, ?_, ?_, ?_, ?_, ?_, ?_, ?_, ?_, ?_, ?_, ?_⟩ <;>
    simp [applyHandler, handleFinishSession, handleReset,
      handleContinueAfterBreak]

/-- Claim C7 witness: finishing a summary showing 61 seconds of focus
(callback gets 2 minutes) in prisma mode. -/
theorem c7_finish_callback_and_reset_witness :
    finishWitnessState.status = .summary ∧
    FinishActionSpec 25 finishWitnessState :=
  ⟨rfl, c7_finish_callback_and_reset 25 _ rfl⟩

/-- Claim C8 counterexample: the `defaultMinutes` prop is not validated —
with `defaultMinutes = 500` the mounted state has
`targetSeconds = 30000 ∉ [60, 7200]`, and reset restores the same
out-of-range value. -/
theorem c8_no_clamping_counterexample :
    (init 500).targetMinutes * 60 = 30000 ∧
    ¬ (init 500).targetMinutes * 60 ≤ 7200 ∧
    (step 500 .reset (init 500)).1.targetMinutes * 60 = 30000 := by decide

/-- Each UI-valid action keeps the live target and the break snapshot in
the slider range, given an in-range `defaultMinutes`. -/
theorem targetInv_step (d : ℕ) (h1 : 1 ≤ d) (h2 : d ≤ 120) (a : Action)
    (s : State) (hv : ValidAction a) (h : TargetInv s) :
    TargetInv (step d a s).1 := by
  obtain ⟨p1, p2, p3, p4⟩ := h
  unfold TargetInv
  cases a with
  | startFocus => simp [applyHandler, handleStartFocus]; omega
  | pause => simp [applyHandler, handlePause]; omega
  | stop => simp [applyHandler, handleStop]; omega
  | reset => simp [applyHandler, handleReset]; omega
  | finishSession =>
      simp [applyHandler, handleFinishSession, handleReset]; omega
  | startBreak => simp [applyHandler, handleStartBreak]; omega
  | continueAfterBreak =>
      simp [applyHandler, handleContinueAfterBreak]; omega
  | goToSetupAfterBreak => simp [applyHandler, handleReset]; omega
  | tick =>
      by_cases t1 : s.timeLeft ≤ 1 <;> by_cases t2 : s.breakTimeLeft ≤ 1 <;>
        cases hs : s.status <;> cases hm : s.focusMode <;>
        simp [applyHandler, tickStep, hs, hm, t1, t2] <;> omega
  | preset m =>
      simp only [ValidAction] at hv
      rcases hv with rfl | rfl | rfl <;>
        simp [applyHandler, setPreset] <;> omega
  | customOn =>
      simp [applyHandler, enterCustomMode]
      split <;> omega
  | customOff => simp [applyHandler, exitCustomMode]; omega
  | slider v =>
      simp only [ValidAction] at hv
      simp [applyHandler, setSlider]
      omega
  | mode m => simp [applyHandler, setMode]; omega

/-- The target invariant holds in every reachable state. -/
theorem targetInv_reachable (d : ℕ) (h1 : 1 ≤ d) (h2 : d ≤ 120)
    (s : State) (hr : Reachable d s) : TargetInv s := by
  induction hr with
  | start => exact ⟨h1, h2, h1, h2⟩
  | next hr hv ih => exact targetInv_step d h1 h2 _ _ hv ih

/-- Claim C8 (amended): the controller never validates or clamps
`defaultMinutes` (see the counterexample); provided the configured
`defaultMinutes` lies in [1, 120], every reachable state keeps
`targetSeconds` in [60, 7200], because every UI-constrained target
change stays in the slider range. -/
theorem c8_target_range_invariant (d : ℕ) (h1 : 1 ≤ d) (h2 : d ≤ 120)
    (s : State) (hr : Reachable d s) :
    60 ≤ s.targetMinutes * 60 ∧ s.targetMinutes * 60 ≤ 7200 := by
  obtain ⟨q1, q2, _, _⟩ := targetInv_reachable d h1 h2 s hr
  omega

/-- Claim C8 witness: the default 25-minute configuration at mount. -/
theorem c8_target_range_invariant_witness :
    1 ≤ 25 ∧ 25 ≤ 120 ∧ Reachable 25 (init 25) ∧
    (60 ≤ (init 25).targetMinutes * 60 ∧
      (init 25).targetMinutes * 60 ≤ 7200) :=
  ⟨by decide, by decide, Reachable.start,
    c8_target_range_invariant 25 (by decide) (by decide) (init 25)
      Reachable.start⟩

/-- The timer effect establishes the tick-source discipline after any
state change. -/
theorem tickConsistent_syncTimer (s : State) :
    TickConsistent (syncTimer s) := by
  cases hs : s.status <;> simp [TickConsistent, syncTimer, hs]

/-- Claim C9: in every reachable state the single interval slot holds at
most one clock (so the countdown and overtime clocks never run
simultaneously), it holds exactly the clock of the current ticking
phase in Running/Flow/Break, and it is empty in every non-ticking phase
(every transition out of a ticking phase cancels the tick). -/
theorem c9_single_active_tick (d : ℕ) (s : State) (hr : Reachable d s) :
    TickConsistent s ∧
    ∀ k1 k2 : TickKind, s.activeTick = some k1 → s.activeTick = some k2 →
      k1 = k2 := by
  constructor
  · induction hr with
    | start => simp [TickConsistent, init]
    | next hr hv ih => exact tickConsistent_syncTimer _
  · intro k1 k2 e1 e2
    rw [e1] at e2
    exact Option.some_injective _ e2

/-- Claim C9 witness: the freshly mounted state. -/
theorem c9_single_active_tick_witness :
    Reachable 25 (init 25) ∧
    (TickConsistent (init 25) ∧
      ∀ k1 k2 : TickKind, (init 25).activeTick = some k1 →
        (init 25).activeTick = some k2 → k1 = k2) :=
  ⟨Reachable.start, c9_single_active_tick 25 (init 25) Reachable.start⟩

/-- Claim C10: pausing from Running changes only the phase, and resuming
changes only the phase back, leaving the countdown, target, overtime,
focus total and cycle counter untouched — in particular the countdown is
not re-initialised to the target, because the `timeLeft` sync effect
fires only in Setup/idle. -/
theorem c10_pause_resume_frame (d : ℕ) (s : State)
    (_hs : s.status = .running) :
    PauseResumeSpec d s := by
  unfold PauseResumeSpec
  refine ⟨?_, ?_, ?_, ?_, ?_, ?_, ?_, ?_, ?_, ?_, ?_, ?_, ?_⟩ <;>
    simp [applyHandler, handlePause, handleStartFocus]

/-- Claim C10 witness: pause and resume at 123 seconds left of a
25-minute run (visibly different from the 1500-second target). -/
theorem c10_pause_resume_frame_witness :
    pauseWitnessState.status = .running ∧
    PauseResumeSpec 25 pauseWitnessState ∧
    pauseWitnessState.timeLeft ≠ pauseWitnessState.targetMinutes * 60 :=
  ⟨rfl, c10_pause_resume_frame 25 _ rfl, by decide⟩

end Prismodoro
